import Mathlib

/-!
Shallow embedding of the `pmcp` repository (files `deploy.py` and
`system_improvements.py`) together with proofs of the specification claims.

Pure Python functions become Lean functions; ambient effects (file writes,
subprocess invocations, the wall clock, `sys.modules`, `psutil`/`shutil`
probes) are passed in explicitly as oracle values or returned as explicit
effect lists.  Python floats used only as accumulated durations or percentages
are modelled as rationals.
-/

/-! ## Python string primitives

Python's `str.split(sep)` and the `in` substring test, embedded as structural
recursion over character lists so that they evaluate inside the kernel.
-/

/-- Embedding of Python `s.split('.')` on the character list of `s`:
splits at every `'.'`, keeping empty chunks, and always returns at least
one chunk (`''.split('.') == ['']`). -/
def splitDotChars : List Char → List (List Char)
  | [] => [[]]
  | c :: cs =>
    if c = '.' then [] :: splitDotChars cs
    else
      match splitDotChars cs with
      | [] => [[c]]
      | h :: t => (c :: h) :: t

/-- Embedding of Python `key.split('.')` at the `String` level. -/
def splitDotStr (s : String) : List String :=
  (splitDotChars s.data).map (fun cs => String.mk cs)

/-- Embedding of Python `s.split(">=")` (used by
`DeploymentManager.check_requirements` on requirement strings such as
`"python>=3.8"`): scanning left to right, a `'>'` immediately followed by
`'='` separates two chunks. -/
def splitGEChars : List Char → List (List Char)
  | [] => [[]]
  | '>' :: '=' :: cs => [] :: splitGEChars cs
  | c :: cs =>
    match splitGEChars cs with
    | [] => [[c]]
    | h :: t => (c :: h) :: t

/-- Embedding of Python `requirement.split(">=")` at the `String` level. -/
def splitGEStr (s : String) : List String :=
  (splitGEChars s.data).map (fun cs => String.mk cs)

/-- Does `pat` occur as a contiguous sublist of `l`?  Embedding of Python's
substring test `pat in s` (on character lists). -/
def containsSubChars (pat : List Char) : List Char → Bool
  | [] => pat.isEmpty
  | c :: cs => pat.isPrefixOf (c :: cs) || containsSubChars pat cs

/-- Embedding of Python `pat in s` for strings. -/
def containsSubStr (pat s : String) : Bool :=
  containsSubChars pat.data s.data

/-- Accumulator loop for `parseDecimal`. -/
def parseDecimalGo : List Char → Nat → Option Nat
  | [], acc => some acc
  | c :: cs, acc =>
    if c.isDigit then parseDecimalGo cs (acc * 10 + (c.toNat - '0'.toNat))
    else none

/-- Embedding of Python `int(s)` restricted to the non-negative decimal
numerals that occur in the requirement catalog; any non-digit character
(and the empty string) yields `none` (Python raises `ValueError`, which the
caller catches). -/
def parseDecimal : List Char → Option Nat
  | [] => none
  | cs => parseDecimalGo cs 0

/-- Embedding of Python `int(s)` at the `String` level. -/
def parseDecimalStr (s : String) : Option Nat :=
  parseDecimal s.data

/-! ## Association lists

Python `dict`s with string keys are embedded as association lists in
insertion order with unique keys: lookup is the first (only) binding, and
`d[k] = v` replaces in place or appends at the end, exactly like `dict`
assignment preserves insertion order.
-/

/-- `dict` lookup: first binding of `k`, if any. -/
def assocFind {β : Type} (k : String) : List (String × β) → Option β
  | [] => none
  | (k', v) :: rest => if k' = k then some v else assocFind k rest

/-- `dict` assignment `d[k] = v`: replace the existing binding in place,
or append a new one. -/
def assocSet {β : Type} (k : String) (v : β) : List (String × β) → List (String × β)
  | [] => [(k, v)]
  | (k', v') :: rest =>
    if k' = k then (k', v) :: rest else (k', v') :: assocSet k v rest

/-- The read-modify-write `if k not in d: d[k] = dflt` followed by an
in-place update of `d[k]` by `f`, as done by the `PerformanceMonitor`
recorders. -/
def assocUpdate {β : Type} (k : String) (f : β → β) (dflt : β) :
    List (String × β) → List (String × β)
  | [] => [(k, f dflt)]
  | (k', v) :: rest =>
    if k' = k then (k', f v) :: rest else (k', v) :: assocUpdate k f dflt rest

/-! ## JSON-compatible values and `ConfigManager`

`system_improvements.py`, class `ConfigManager`.  The in-memory store
`self._configs` is a dict from namespace name to a parsed JSON value;
persistence of a namespace to `<name>.json` (`_save_config`) is a pure file
write of the already-computed mapping and has no effect on the in-memory
semantics, so it is not modelled.
-/

/-- JSON-compatible Python values. -/
inductive JValue : Type
  | null : JValue
  | bool : Bool → JValue
  | num : Int → JValue
  | str : String → JValue
  | arr : List JValue → JValue
  | obj : List (String × JValue) → JValue

/-- The dotted-path descent loop of `ConfigManager.get`: at each segment,
if the current node is a dict containing the segment, descend, otherwise
fail (the caller then returns the default). -/
def configTraverse : List String → JValue → Option JValue
  | [], v => some v
  | k :: ks, v =>
    match v with
    | .obj fields =>
      match assocFind k fields with
      | some v' => configTraverse ks v'
      | none => none
    | _ => none

/-- `ConfigManager.get(key, default)`: split the key on `'.'` and walk the
whole namespace forest (`self._configs` itself is the first dict walked). -/
def configGet (store : List (String × JValue)) (key : String) (dflt : JValue) : JValue :=
  (configTraverse (splitDotStr key) (JValue.obj store)).getD dflt

/-- The nested-creation loop of `ConfigManager.set` inside one namespace:
for every segment but the last, create a `{}` child when missing and
descend; assign the value at the last segment.  Descending into an existing
non-dict node makes the Python code raise (`TypeError`), modelled as
`none`.  The empty segment list is unreachable (`split` never returns an
empty list). -/
def configSetPath (v : JValue) : List String → List (String × JValue) →
    Option (List (String × JValue))
  | [], _ => none
  | [k], fields => some (assocSet k v fields)
  | k :: k2 :: ks, fields =>
    match (assocFind k fields).getD (JValue.obj []) with
    | .obj cfields =>
      match configSetPath v (k2 :: ks) cfields with
      | some cf => some (assocSet k (JValue.obj cf) fields)
      | none => none
    | _ => none

/-- `ConfigManager.set(key, value, config_name)`: ensure the namespace
exists (creating `{}` when absent), then run the nested-creation loop in
that namespace.  A namespace whose loaded value is not a dict makes the
Python code raise, modelled as `none`. -/
def configSet (store : List (String × JValue)) (key : String) (v : JValue)
    (configName : String) : Option (List (String × JValue)) :=
  match (assocFind configName store).getD (JValue.obj []) with
  | .obj nsFields =>
    match configSetPath v (splitDotStr key) nsFields with
    | some nf => some (assocSet configName (JValue.obj nf) store)
    | none => none
  | _ => none

/-! ## `PerformanceMonitor`

`system_improvements.py`, class `PerformanceMonitor`.  Durations and
response times (Python floats) are modelled as rationals; wall-clock
timestamps are passed in explicitly where the code calls
`datetime.now().isoformat()`.
-/

/-- Per-tool aggregate stored in `metrics["tool_executions"]`. -/
structure ToolStats : Type where
  count : Nat
  total_time : ℚ
  successes : Nat
  failures : Nat
deriving DecidableEq

/-- Per-model aggregate stored in `metrics["model_requests"]`. -/
structure ModelStats : Type where
  count : Nat
  total_time : ℚ
  avg_time : ℚ
deriving DecidableEq

/-- One entry of an error kind's `"messages"` list. -/
structure ErrorEntry : Type where
  message : String
  timestamp : String
deriving DecidableEq

/-- Per-kind aggregate stored in `metrics["errors"]`. -/
structure ErrorStats : Type where
  count : Nat
  messages : List ErrorEntry
deriving DecidableEq

/-- The `self.metrics` dictionary.  `api_calls` and `response_times` are
initialised empty and never written by any code path. -/
structure PerfMetrics : Type where
  tool_executions : List (String × ToolStats)
  model_requests : List (String × ModelStats)
  api_calls : List (String × ℚ)
  errors : List (String × ErrorStats)
  response_times : List (String × ℚ)
deriving DecidableEq

/-- `PerformanceMonitor.__init__`: all five metric dicts start empty. -/
def perfInit : PerfMetrics :=
  { tool_executions := [], model_requests := [], api_calls := [],
    errors := [], response_times := [] }

/-- `PerformanceMonitor.record_tool_execution(tool_name, execution_time,
success)`. -/
def record_tool_execution (m : PerfMetrics) (toolName : String)
    (executionTime : ℚ) (success : Bool) : PerfMetrics :=
  { m with
    tool_executions :=
      assocUpdate toolName
        (fun s =>
          { count := s.count + 1
            total_time := s.total_time + executionTime
            successes := s.successes + (if success then 1 else 0)
            failures := s.failures + (if success then 0 else 1) })
        { count := 0, total_time := 0, successes := 0, failures := 0 }
        m.tool_executions }

/-- `PerformanceMonitor.record_model_request(model_type, model_name,
response_time)`; the key is `f"{model_type}:{model_name}"`. -/
def record_model_request (m : PerfMetrics) (modelType modelName : String)
    (responseTime : ℚ) : PerfMetrics :=
  { m with
    model_requests :=
      assocUpdate (modelType ++ ":" ++ modelName)
        (fun s =>
          let count := s.count + 1
          let total := s.total_time + responseTime
          { count := count, total_time := total, avg_time := total / count })
        { count := 0, total_time := 0, avg_time := 0 }
        m.model_requests }

/-- `PerformanceMonitor.record_error(error_type, error_message)`; `now` is
the `datetime.now().isoformat()` timestamp appended with the message. -/
def record_error (m : PerfMetrics) (errorType errorMessage now : String) :
    PerfMetrics :=
  { m with
    errors :=
      assocUpdate errorType
        (fun s =>
          { count := s.count + 1
            messages := s.messages ++ [{ message := errorMessage, timestamp := now }] })
        { count := 0, messages := [] }
        m.errors }

/-- Folding a sequence of `record_tool_execution` calls for one tool name
over a monitor, one `(execution_time, success)` pair per call. -/
def runToolCalls (m : PerfMetrics) (toolName : String) :
    List (ℚ × Bool) → PerfMetrics :=
  List.foldl (fun acc c => record_tool_execution acc toolName c.1 c.2) m

/-- The tool aggregate observed for a name (zero aggregate when the tool
was never recorded). -/
def obsToolStats (toolName : String) (m : PerfMetrics) : ToolStats :=
  (assocFind toolName m.tool_executions).getD
    { count := 0, total_time := 0, successes := 0, failures := 0 }

/-- Number of stored message entries for an error kind. -/
def errMsgCount (errorType : String) (m : PerfMetrics) : Nat :=
  ((assocFind errorType m.errors).map (fun s => s.messages.length)).getD 0

/-! ## `retry`

`system_improvements.py`, decorator `retry(max_attempts, delay, backoff,
exceptions)`, synchronous path `sync_wrapper` (the asynchronous wrapper
`async_wrapper` runs the identical attempt/delay logic with
`asyncio.sleep`).  The wrapped callable is modelled as a function from the
attempt number (1-based) to an outcome; exceptions are identified by name
and the `exceptions` tuple becomes a membership predicate `matchesExc`.  The recorded
delay list is the sequence of `time.sleep(current_delay)` calls.
-/

/-- What one invocation of the wrapped operation does: return a value or
raise the named exception. -/
inductive OpResult (α : Type) : Type
  | ok : α → OpResult α
  | raise : String → OpResult α

/-- The `while attempt <= max_attempts` loop of `sync_wrapper`, driven by
the fuel `max_attempts + 1 - attempt` (so the loop guard is `fuel > 0` and
`attempt == max_attempts` is `fuel = 1`).  Result: `Except.error e` models
an exception propagating to the caller; `Except.ok none` models the
`return None` fall-through after the loop (reachable only when
`max_attempts < 1`). -/
def retryGo {α : Type} (op : Nat → OpResult α) (matchesExc : String → Bool)
    (backoff : ℚ) : Nat → Nat → ℚ → List ℚ → Except String (Option α) × List ℚ
  | 0, _, _, acc => (.ok none, acc)
  | fuel + 1, attempt, currentDelay, acc =>
    match op attempt with
    | .ok v => (.ok (some v), acc)
    | .raise e =>
      if matchesExc e then
        if fuel = 0 then (.error e, acc)
        else retryGo op matchesExc backoff fuel (attempt + 1) (currentDelay * backoff)
          (acc ++ [currentDelay])
      else (.error e, acc)

/-- `sync_wrapper` produced by `retry(max_attempts, delay, backoff,
exceptions)` applied to an operation: starts at attempt 1 with
`current_delay = delay` and no sleeps recorded. -/
def sync_wrapper {α : Type} (op : Nat → OpResult α) (matchesExc : String → Bool)
    (maxAttempts : Nat) (delay backoff : ℚ) : Except String (Option α) × List ℚ :=
  retryGo op matchesExc backoff maxAttempts 1 delay []

/-! ## `HealthChecker`

`system_improvements.py`, `HealthChecker.check_system_health`.  The OS
probes are oracle values: the disk probe either returns
`shutil.disk_usage("/")` (total, used, free) or raises; the memory probe
either returns `psutil.virtual_memory()` data, raises `ImportError`
(`psutil` absent), or raises some other exception.  The model-availability
block's `try` body is `pass` and can contribute nothing.  Percentages are
rationals; the embedded `performance_monitor.get_summary()` snapshot is
carried verbatim as the monitor state.
-/

/-- Outcome of `shutil.disk_usage("/")` inside the disk `try` block. -/
inductive DiskProbe : Type
  | ok : Nat → Nat → Nat → DiskProbe
  | exc : String → DiskProbe

/-- Outcome of `import psutil; psutil.virtual_memory()` inside the memory
`try` block: data (usage percent, available GiB), `ImportError`, or some
other exception. -/
inductive MemProbe : Type
  | ok : ℚ → Nat → MemProbe
  | importErr : MemProbe
  | exc : String → MemProbe

/-- The ambient state one `check_system_health` call observes. -/
structure HealthEnv : Type where
  timestamp : String
  disk : DiskProbe
  memory : MemProbe
  metrics : PerfMetrics

/-- The produced health-status report (component entries are kept as
component name paired with the component's `"status"` string; the numeric
payload fields of each component entry carry no further control flow). -/
structure HealthReport : Type where
  timestamp : String
  overall_status : String
  components : List (String × String)
  warnings : List String
  errors : List String
  metrics : PerfMetrics

/-- Disk block: component status plus appended warnings and errors.  Note
the asymmetry in the source: the component is `"warning"` when the usage
percent is `>= 90` but the warnings entry is appended only when it is
`> 90`.  `total = 0` makes the Python division raise
`ZeroDivisionError`, caught by the same `except` as a probe failure. -/
def diskCheck : DiskProbe → String × List String × List String
  | .exc e => ("error", [], ["Disk check failed: " ++ e])
  | .ok total used _free =>
    if total = 0 then ("error", [], ["Disk check failed: division by zero"])
    else
      let pct : ℚ := (used : ℚ) / (total : ℚ) * 100
      (if pct < 90 then "healthy" else "warning",
       if pct > 90 then ["Disk usage is above 90%"] else [],
       [])

/-- Memory block: `ImportError` yields status `"unknown"` with no warning
and no error; any other exception yields status `"error"` plus an errors
entry; data follows the same 90% threshold logic as disk. -/
def memCheck : MemProbe → String × List String × List String
  | .importErr => ("unknown", [], [])
  | .exc e => ("error", [], ["Memory check failed: " ++ e])
  | .ok pct _avail =>
    (if pct < 90 then "healthy" else "warning",
     if pct > 90 then ["Memory usage is above 90%"] else [],
     [])

/-- The final overall-status computation: `"healthy"` by default,
`"unhealthy"` when the errors list is non-empty, else `"warning"` when the
warnings list is non-empty. -/
def overallOf (errors warnings : List String) : String :=
  if errors.isEmpty then (if warnings.isEmpty then "healthy" else "warning")
  else "unhealthy"

/-- `HealthChecker.check_system_health`, with the ambient probes passed in
explicitly.  Warnings and errors are accumulated in source order (disk
first, then memory; the model block appends nothing). -/
def check_system_health (e : HealthEnv) : HealthReport :=
  { timestamp := e.timestamp
    overall_status :=
      overallOf ((diskCheck e.disk).2.2 ++ (memCheck e.memory).2.2)
        ((diskCheck e.disk).2.1 ++ (memCheck e.memory).2.1)
    components := [("disk", (diskCheck e.disk).1), ("memory", (memCheck e.memory).1)]
    warnings := (diskCheck e.disk).2.1 ++ (memCheck e.memory).2.1
    errors := (diskCheck e.disk).2.2 ++ (memCheck e.memory).2.2
    metrics := e.metrics }

/-- "Some component check raised an exception during
`check_system_health`": the disk probe raised (or the usage division
raised `ZeroDivisionError`), or the memory probe raised (`ImportError`
included). -/
def someComponentRaised (e : HealthEnv) : Prop :=
  (∃ m, e.disk = DiskProbe.exc m) ∨
  (∃ u f, e.disk = DiskProbe.ok 0 u f) ∨
  e.memory = MemProbe.importErr ∨
  (∃ m, e.memory = MemProbe.exc m)

/-! ## `deploy.py`

`DeploymentConfig`, `DeploymentManager` and the CLI entry point `main`.
The ambient machine is an explicit `DeployWorld` oracle: the interpreter
version (`sys.version_info`), which `<command> --version` probes succeed,
whether `"google.colab"` is loaded in `sys.modules`, whether
`requirements.txt` already exists, and how the `pip install` subprocess
ends.  File-system side effects are returned as an ordered
`DeployStep` list.
-/

/-- Static catalog entry of `DeploymentConfig.ENVIRONMENTS`. -/
structure EnvProfile : Type where
  description : String
  requirements : List String
  services : List String
  ports : List (String × Nat)

/-- `DeploymentConfig.ENVIRONMENTS`. -/
def ENVIRONMENTS : List (String × EnvProfile) :=
  [("local",
    { description := "Local development environment"
      requirements := ["python>=3.8", "pip", "git"]
      services := ["jupyter", "api_server"]
      ports := [("api", 8000), ("jupyter", 8888)] }),
   ("colab",
    { description := "Google Colab environment"
      requirements := ["google-colab", "ipywidgets"]
      services := ["jupyter", "api_server", "frp"]
      ports := [("api", 8000), ("frp", 7000)] }),
   ("cloud",
    { description := "Cloud deployment (AWS/GCP/Azure)"
      requirements := ["docker", "docker-compose"]
      services := ["api_server", "nginx", "redis"]
      ports := [("api", 8000), ("nginx", 80), ("redis", 6379)] }),
   ("production",
    { description := "Production environment"
      requirements := ["docker", "kubernetes", "helm"]
      services := ["api_server", "nginx", "redis", "monitoring"]
      ports := [("api", 8000), ("nginx", 80), ("redis", 6379), ("monitoring", 9090)] })]

/-- The requirement strings of an environment,
`ENVIRONMENTS.get(environment, {}).get("requirements", [])`: an unknown
environment name yields the empty list. -/
def requirementsOf (environment : String) : List String :=
  ((assocFind environment ENVIRONMENTS).map (fun p => p.requirements)).getD []

/-- How the `pip install -r requirements.txt` subprocess ends. -/
inductive PipOutcome : Type
  | success : PipOutcome
  | calledProcessError : PipOutcome
  | timeoutExpired : PipOutcome
deriving DecidableEq

/-- The ambient machine state a deployment run observes. -/
structure DeployWorld : Type where
  pyMajor : Nat
  pyMinor : Nat
  okCommands : List String
  colabLoaded : Bool
  reqFileExists : Bool
  pip : PipOutcome

/-- Exceptions a deployment run can leak to its caller. -/
inductive DeployExc : Type
  | timeoutExpired : DeployExc
deriving DecidableEq

/-- File-system side effects of a run, in order. -/
inductive DeployStep : Type
  | openDeploymentLog : DeployStep
  | mkdirDeployment : DeployStep
  | createRequirementsFile : DeployStep
  | pipInstall : DeployStep
  | writeEnvFile : DeployStep
  | writeStartupScript : DeployStep
  | writeDockerFiles : DeployStep
  | writeSystemdService : DeployStep
  | writeDeploymentRecord : DeployStep
deriving DecidableEq

/-- `DeploymentManager.__init__(environment, ...)`: regardless of the
environment name it configures logging (opening `deployment.log` via a
`FileHandler`) and then creates the deployment directory
(`self.deployment_dir.mkdir(exist_ok=True)`).  No validation of the
environment name happens anywhere in the class. -/
def managerInitSteps (_environment : String) : List DeployStep :=
  [DeployStep.openDeploymentLog, DeployStep.mkdirDeployment]

/-- `DeploymentManager._check_python_version(required_version)`: parse
`major[.minor]` (a parse failure is the caught `ValueError`, giving
`False`) and compare against the interpreter version. -/
def check_python_version (w : DeployWorld) (requiredVersion : String) : Bool :=
  let parts := splitDotStr requiredVersion
  match parseDecimalStr (parts.headD ""),
      (if parts.length > 1 then parseDecimalStr ((parts.drop 1).headD "") else some 0) with
  | some maj, some minr =>
    decide (w.pyMajor > maj) || (decide (w.pyMajor = maj) && decide (w.pyMinor ≥ minr))
  | _, _ => false

/-- `DeploymentManager._check_command(command)`: run
`<command> --version` with a 10 second timeout; any of
`CalledProcessError`, `FileNotFoundError`, `TimeoutExpired` gives `False`.
The world records the set of commands whose probe succeeds. -/
def check_command (w : DeployWorld) (command : String) : Bool :=
  w.okCommands.contains command

/-- The fixed command list of the `elif` branch in `check_requirements`. -/
def PROBED_COMMANDS : List String :=
  ["pip", "git", "docker", "docker-compose", "kubectl", "helm"]

/-- One iteration of the `check_requirements` loop: is this requirement
appended to `missing_requirements`?  A requirement matching none of the
three branches (`"python" in requirement`, membership in
`PROBED_COMMANDS`, equality with `"google-colab"`) is silently skipped and
can never be reported missing. -/
def requirementMissing (w : DeployWorld) (requirement : String) : Bool :=
  if containsSubStr "python" requirement then
    let versionRequired :=
      if containsSubStr ">=" requirement then ((splitGEStr requirement).drop 1).headD ""
      else "3.8"
    ! check_python_version w versionRequired
  else if PROBED_COMMANDS.contains requirement then
    ! check_command w requirement
  else if requirement = "google-colab" then
    ! w.colabLoaded
  else false

/-- `DeploymentManager.check_requirements`: returns whether the check
passed together with the reported `missing_requirements` list. -/
def check_requirements (w : DeployWorld) (environment : String) :
    Bool × List String :=
  let missing := (requirementsOf environment).filter (requirementMissing w)
  (missing.isEmpty, missing)

/-- `DeploymentManager.install_dependencies`: create `requirements.txt`
when absent, then run `pip install` with `timeout=300`.  Only
`CalledProcessError` is caught (returning `False`); a `TimeoutExpired`
propagates to the caller. -/
def install_dependencies (w : DeployWorld) :
    Except DeployExc Bool × List DeployStep :=
  let pre := if w.reqFileExists then [] else [DeployStep.createRequirementsFile]
  match w.pip with
  | .success => (.ok true, pre ++ [DeployStep.pipInstall])
  | .calledProcessError => (.ok false, pre ++ [DeployStep.pipInstall])
  | .timeoutExpired => (.error .timeoutExpired, pre ++ [DeployStep.pipInstall])

/-- The artifact-generation tail of `deploy`: environment file, startup
script, then Docker files for cloud/production or a systemd unit for
local, then the persisted deployment record. -/
def artifactSteps (environment : String) : List DeployStep :=
  [DeployStep.writeEnvFile, DeployStep.writeStartupScript] ++
    (if environment = "cloud" ∨ environment = "production" then
      [DeployStep.writeDockerFiles]
    else if environment = "local" then [DeployStep.writeSystemdService]
    else []) ++
    [DeployStep.writeDeploymentRecord]

/-- `DeploymentManager.deploy`: requirement gate, dependency gate, then
artifact generation and record persistence.  `Except.error` models an
exception escaping `deploy`; `.ok false` an aborted run; `.ok true`
success.  The step list contains the file-system effects performed before
returning (the requirement check itself writes nothing). -/
def deploy (w : DeployWorld) (environment : String) :
    Except DeployExc Bool × List DeployStep :=
  if (check_requirements w environment).1 = false then (.ok false, [])
  else
    match install_dependencies w with
    | (.ok true, steps) => (.ok true, steps ++ artifactSteps environment)
    | (.ok false, steps) => (.ok false, steps)
    | (.error e, steps) => (.error e, steps)

/-- Outcome of one CLI invocation of `deploy.py`. -/
inductive CliOutcome : Type
  | argparseError : CliOutcome
  | dryRun : CliOutcome
  | completed : Bool → CliOutcome
  | raised : DeployExc → CliOutcome
deriving DecidableEq

/-- The CLI entry point `main()`: `argparse` validates the positional
`environment` against `choices=list(DeploymentConfig.ENVIRONMENTS.keys())`
and exits before anything else runs; `--dry-run` returns after printing;
otherwise the manager is constructed (performing its init file effects)
and `deploy` runs. -/
def mainCli (environment : String) (dryRunFlag : Bool) (w : DeployWorld) :
    CliOutcome × List DeployStep :=
  if (assocFind environment ENVIRONMENTS).isNone then (.argparseError, [])
  else if dryRunFlag then (.dryRun, [])
  else
    match deploy w environment with
    | (.ok b, steps) => (.completed b, managerInitSteps environment ++ steps)
    | (.error e, steps) => (.raised e, managerInitSteps environment ++ steps)

/-! ## Helper lemmas -/

/-- Python `split` never returns an empty list: every branch of
`splitDotChars` produces a cons. -/
theorem splitDotChars_ne_nil (l : List Char) : splitDotChars l ≠ [] := by
  match l with
  | [] => simp [splitDotChars]
  | c :: cs =>
    simp only [splitDotChars]
    split
    · simp
    · split <;> simp

/-- `key.split('.')` never returns an empty list. -/
theorem splitDotStr_ne_nil (s : String) : splitDotStr s ≠ [] := by
  simp [splitDotStr, splitDotChars_ne_nil]

/-- Splitting on `'.'` distributes over an appended dot-free chunk. -/
theorem splitDotChars_append (a b : List Char) (ha : '.' ∉ a) :
    splitDotChars (a ++ '.' :: b) = a :: splitDotChars b := by
  induction a with
  | nil => simp [splitDotChars]
  | cons c cs ih =>
    have hc : ¬(c = '.') := fun h => ha (h ▸ List.mem_cons_self c cs)
    rw [List.cons_append]
    simp only [splitDotChars, if_neg hc,
      ih (fun h => ha (List.mem_cons_of_mem _ h))]

/-- Dict lookup after assignment at the same key. -/
theorem assocFind_assocSet_self {β : Type} (k : String) (v : β)
    (l : List (String × β)) : assocFind k (assocSet k v l) = some v := by
  induction l with
  | nil => simp [assocSet, assocFind]
  | cons p rest ih =>
    obtain ⟨k', v'⟩ := p
    by_cases h : k' = k
    · simp [assocSet, assocFind, h]
    · simp [assocSet, assocFind, h, ih]

/-- Dict lookup after the upsert performed by the metric recorders. -/
theorem assocFind_assocUpdate_self {β : Type} (k : String) (f : β → β)
    (dflt : β) (l : List (String × β)) :
    assocFind k (assocUpdate k f dflt l) = some (f ((assocFind k l).getD dflt)) := by
  induction l with
  | nil => simp [assocUpdate, assocFind]
  | cons p rest ih =>
    obtain ⟨k', v'⟩ := p
    by_cases h : k' = k
    · simp [assocUpdate, assocFind, h]
    · simp [assocUpdate, assocFind, h, ih]

/-- After `configSetPath` succeeds, traversing the same segments reaches
the value just written. -/
theorem configSetPath_roundtrip (v : JValue) :
    ∀ (ks : List String) (fields nf : List (String × JValue)),
      configSetPath v ks fields = some nf →
      configTraverse ks (JValue.obj nf) = some v := by
  intro ks
  induction ks with
  | nil => intro fields nf h; simp [configSetPath] at h
  | cons k ks ih =>
    intro fields nf h
    cases ks with
    | nil =>
      simp only [configSetPath, Option.some.injEq] at h
      subst h
      simp [configTraverse, assocFind_assocSet_self]
    | cons k2 ks' =>
      simp only [configSetPath] at h
      cases hchild : (assocFind k fields).getD (JValue.obj []) with
      | obj cfields =>
        rw [hchild] at h
        dsimp only [] at h
        cases hrec : configSetPath v (k2 :: ks') cfields with
        | some cf =>
          rw [hrec] at h
          simp only [Option.some.injEq] at h
          subst h
          simp only [configTraverse, assocFind_assocSet_self]
          exact ih cfields cf hrec
        | none => rw [hrec] at h; exact absurd h (by simp)
      | null => rw [hchild] at h; exact absurd h (by simp)
      | bool b => rw [hchild] at h; exact absurd h (by simp)
      | num n => rw [hchild] at h; exact absurd h (by simp)
      | str s => rw [hchild] at h; exact absurd h (by simp)
      | arr xs => rw [hchild] at h; exact absurd h (by simp)

/-- Traversing a non-empty segment list in an empty dict fails. -/
theorem configTraverse_obj_nil (ks : List String) (h : ks ≠ []) :
    configTraverse ks (JValue.obj []) = none := by
  cases ks with
  | nil => exact absurd rfl h
  | cons k ks => simp [configTraverse, assocFind]

/-! ## Claim theorems: `ConfigManager` -/

/-- C9: `ConfigManager.get` on an empty store returns the caller-supplied
default for every dotted key, and in general returns the default exactly
when the dotted-path descent fails (a missing segment or a non-mapping
node); the embedding is a total function, matching the absence of any
exception path in the source. -/
theorem c9_get_returns_default (key : String) (dflt : JValue)
    (store : List (String × JValue)) :
    configGet [] key dflt = dflt ∧
    (configTraverse (splitDotStr key) (JValue.obj store) = none →
      configGet store key dflt = dflt) := by
  constructor
  · unfold configGet
    rw [configTraverse_obj_nil _ (splitDotStr_ne_nil key)]
    rfl
  · intro h
    unfold configGet
    rw [h]
    rfl

/-- C9 witness at concrete inputs. -/
theorem c9_witness :
    configGet [] "a.b" JValue.null = JValue.null ∧
    configGet [("x", JValue.num 1)] "a.b" JValue.null = JValue.null :=
  ⟨(c9_get_returns_default "a.b" JValue.null []).1,
   (c9_get_returns_default "a.b" JValue.null [("x", JValue.num 1)]).2 rfl⟩

/-- C2 as stated is false: on a fresh store, `set("a.b.c", v)` writes into
the default namespace `"user_config"`, so the unprefixed `get("a.b.c",
sentinel)` misses at the first segment and returns the sentinel, not `v`
(here `v = 1`, sentinel `null`). -/
theorem c2_counterexample :
    configSet [] "a.b.c" (JValue.num 1) "user_config" =
      some [("user_config",
        JValue.obj [("a", JValue.obj [("b", JValue.obj [("c", JValue.num 1)])])])] ∧
    configGet
      [("user_config",
        JValue.obj [("a", JValue.obj [("b", JValue.obj [("c", JValue.num 1)])])])]
      "a.b.c" JValue.null = JValue.null ∧
    JValue.null ≠ JValue.num 1 :=
  ⟨rfl, rfl, fun h => JValue.noConfusion h⟩

/-- C2 amended: on a fresh store, `set("a.b.c", v)` followed by a get of
the namespace-qualified key `"user_config.a.b.c"` returns `v`, for every
value `v` and sentinel. -/
theorem c2_amended_roundtrip (v sentinel : JValue) :
    configSet [] "a.b.c" v "user_config" =
      some [("user_config",
        JValue.obj [("a", JValue.obj [("b", JValue.obj [("c", v)])])])] ∧
    configGet
      [("user_config", JValue.obj [("a", JValue.obj [("b", JValue.obj [("c", v)])])])]
      "user_config.a.b.c" sentinel = v :=
  ⟨rfl, rfl⟩

/-- C10: whenever `set(k, v, ns)` succeeds (all traversed nodes are
mappings) and the namespace name is dot-free, `get(ns + "." + k, default)`
returns `v`: the namespace prefix makes the write observable. -/
theorem c10_namespaced_roundtrip (store store' : List (String × JValue))
    (k ns : String) (v dflt : JValue) (hns : '.' ∉ ns.data)
    (hset : configSet store k v ns = some store') :
    configGet store' (ns ++ "." ++ k) dflt = v := by
  unfold configSet at hset
  cases hns0 : (assocFind ns store).getD (JValue.obj []) with
  | obj nsFields =>
    rw [hns0] at hset
    dsimp only [] at hset
    cases hsp : configSetPath v (splitDotStr k) nsFields with
    | some nf =>
      rw [hsp] at hset
      simp only [Option.some.injEq] at hset
      subst hset
      have hsplit : splitDotStr (ns ++ "." ++ k) = ns :: splitDotStr k := by
        unfold splitDotStr
        rw [show (ns ++ "." ++ k).data = ns.data ++ '.' :: k.data from by simp,
          splitDotChars_append _ _ hns]
        rfl
      unfold configGet
      rw [hsplit]
      simp only [configTraverse, assocFind_assocSet_self]
      rw [configSetPath_roundtrip v (splitDotStr k) nsFields nf hsp]
      rfl
    | none => rw [hsp] at hset; exact absurd hset (by simp)
  | null => rw [hns0] at hset; exact absurd hset (by simp)
  | bool b => rw [hns0] at hset; exact absurd hset (by simp)
  | num n => rw [hns0] at hset; exact absurd hset (by simp)
  | str s => rw [hns0] at hset; exact absurd hset (by simp)
  | arr xs => rw [hns0] at hset; exact absurd hset (by simp)

/-- C10 witness at concrete inputs. -/
theorem c10_witness :
    configGet ((configSet [] "x.y" (JValue.num 7) "ws").getD []) "ws.x.y"
      JValue.null = JValue.num 7 :=
  c10_namespaced_roundtrip [] _ "x.y" "ws" (JValue.num 7) JValue.null
    (by decide) rfl

/-! ## Claim theorems: `PerformanceMonitor` -/

/-- One `record_tool_execution` call updates the observed aggregate for
its tool name by one execution. -/
theorem obsToolStats_record (m : PerfMetrics) (toolName : String)
    (t : ℚ) (b : Bool) :
    obsToolStats toolName (record_tool_execution m toolName t b) =
      { count := (obsToolStats toolName m).count + 1
        total_time := (obsToolStats toolName m).total_time + t
        successes := (obsToolStats toolName m).successes + (if b then 1 else 0)
        failures := (obsToolStats toolName m).failures + (if b then 0 else 1) } := by
  unfold obsToolStats record_tool_execution
  rw [assocFind_assocUpdate_self]
  rfl

/-- Folding tool executions accumulates count and cumulative time. -/
theorem obsToolStats_runToolCalls (toolName : String) :
    ∀ (calls : List (ℚ × Bool)) (m : PerfMetrics),
      (obsToolStats toolName (runToolCalls m toolName calls)).count =
        (obsToolStats toolName m).count + calls.length ∧
      (obsToolStats toolName (runToolCalls m toolName calls)).total_time =
        (obsToolStats toolName m).total_time + (calls.map Prod.fst).sum := by
  intro calls
  induction calls with
  | nil => intro m; simp [runToolCalls]
  | cons c cs ih =>
    intro m
    have hstep := obsToolStats_record m toolName c.1 c.2
    have hrun : runToolCalls m toolName (c :: cs) =
        runToolCalls (record_tool_execution m toolName c.1 c.2) toolName cs := rfl
    rw [hrun]
    obtain ⟨ihc, iht⟩ := ih (record_tool_execution m toolName c.1 c.2)
    constructor
    · rw [ihc, hstep]
      simp [Nat.add_assoc, Nat.add_comm]
      omega
    · rw [iht, hstep]
      simp only [List.map_cons, List.sum_cons]
      ring

/-- The recorded tool keeps a stored entry after any non-empty call
sequence. -/
theorem assocFind_runToolCalls_isSome (toolName : String) :
    ∀ (calls : List (ℚ × Bool)) (m : PerfMetrics),
      (assocFind toolName m.tool_executions).isSome = true →
      (assocFind toolName (runToolCalls m toolName calls).tool_executions).isSome = true := by
  intro calls
  induction calls with
  | nil => intro m h; exact h
  | cons c cs ih =>
    intro m _
    have hrun : runToolCalls m toolName (c :: cs) =
        runToolCalls (record_tool_execution m toolName c.1 c.2) toolName cs := rfl
    rw [hrun]
    apply ih
    unfold record_tool_execution
    rw [assocFind_assocUpdate_self]
    rfl

/-- C8: starting from a fresh monitor, `record_tool_execution` called once
per element of a non-empty call list stores an aggregate with
`count = N` and `total_time` the sum of the durations, and each
`record_error` call appends exactly one message entry for its error
kind. -/
theorem c8_metrics_accumulation (toolName : String) (calls : List (ℚ × Bool))
    (hne : calls ≠ []) (m : PerfMetrics) (kind msg now : String) :
    (∃ s, assocFind toolName (runToolCalls perfInit toolName calls).tool_executions
        = some s ∧ s.count = calls.length ∧ s.total_time = (calls.map Prod.fst).sum) ∧
    errMsgCount kind (record_error m kind msg now) = errMsgCount kind m + 1 := by
  constructor
  · have hsome :
        (assocFind toolName (runToolCalls perfInit toolName calls).tool_executions).isSome
          = true := by
      cases calls with
      | nil => exact absurd rfl hne
      | cons c cs =>
        have hrun : runToolCalls perfInit toolName (c :: cs) =
            runToolCalls (record_tool_execution perfInit toolName c.1 c.2) toolName cs := rfl
        rw [hrun]
        apply assocFind_runToolCalls_isSome
        unfold record_tool_execution
        rw [assocFind_assocUpdate_self]
        rfl
    obtain ⟨s, hs⟩ := Option.isSome_iff_exists.mp hsome
    refine ⟨s, hs, ?_, ?_⟩
    · have h := (obsToolStats_runToolCalls toolName calls perfInit).1
      unfold obsToolStats at h
      rw [hs] at h
      simpa [perfInit, assocFind] using h
    · have h := (obsToolStats_runToolCalls toolName calls perfInit).2
      unfold obsToolStats at h
      rw [hs] at h
      simpa [perfInit, assocFind] using h
  · unfold errMsgCount record_error
    rw [assocFind_assocUpdate_self]
    cases hfind : assocFind kind m.errors with
    | none => simp [hfind]
    | some s => simp [hfind]

/-- C8 witness at concrete inputs. -/
theorem c8_witness :
    (∃ s, assocFind "t" (runToolCalls perfInit "t" [(2, true), (3, false)]).tool_executions
        = some s ∧ s.count = 2 ∧ s.total_time = 5) ∧
    errMsgCount "E" (record_error perfInit "E" "boom" "now") = 1 := by
  have h := c8_metrics_accumulation "t" [(2, true), (3, false)] (by decide)
    perfInit "E" "boom" "now"
  refine ⟨?_, ?_⟩
  · obtain ⟨s, h1, h2, h3⟩ := h.1
    exact ⟨s, h1, h2, by rw [h3]; norm_num⟩
  · have h2 := h.2
    simp [errMsgCount, perfInit, assocFind] at h2
    simp [errMsgCount, perfInit, assocFind, h2]

/-! ## Claim theorems: `HealthChecker` -/

/-- The overall-status computation classifies exactly by emptiness of the
errors and warnings lists. -/
theorem overallOf_spec (errors warnings : List String) :
    (overallOf errors warnings = "unhealthy" ↔ errors ≠ []) ∧
    (overallOf errors warnings = "warning" ↔ warnings ≠ [] ∧ errors = []) ∧
    (overallOf errors warnings = "healthy" ↔ errors = [] ∧ warnings = []) := by
  unfold overallOf
  rcases errors with _ | ⟨x, E⟩ <;> rcases warnings with _ | ⟨y, W⟩ <;> simp

/-- C7: every report produced by `check_system_health` has
`overall_status = "unhealthy"` iff its errors list is non-empty,
`"warning"` iff its warnings list is non-empty and its errors list is
empty, and `"healthy"` iff both lists are empty. -/
theorem c7_overall_status_iff (e : HealthEnv) :
    ((check_system_health e).overall_status = "unhealthy" ↔
      (check_system_health e).errors ≠ []) ∧
    ((check_system_health e).overall_status = "warning" ↔
      (check_system_health e).warnings ≠ [] ∧ (check_system_health e).errors = []) ∧
    ((check_system_health e).overall_status = "healthy" ↔
      (check_system_health e).errors = [] ∧ (check_system_health e).warnings = []) :=
  overallOf_spec ((diskCheck e.disk).2.2 ++ (memCheck e.memory).2.2)
    ((diskCheck e.disk).2.1 ++ (memCheck e.memory).2.1)

/-- C4 as stated is false: when the memory check raises `ImportError`
(`psutil` absent) and the disk check is clean, a component check raised an
exception yet the report is `"healthy"`, not `"unhealthy"`. -/
theorem c4_counterexample :
    someComponentRaised
      { timestamp := "t", disk := DiskProbe.ok 100 50 50,
        memory := MemProbe.importErr, metrics := perfInit } ∧
    (check_system_health
      { timestamp := "t", disk := DiskProbe.ok 100 50 50,
        memory := MemProbe.importErr, metrics := perfInit }).overall_status
      = "healthy" :=
  ⟨Or.inr (Or.inr (Or.inl rfl)),
   by norm_num [check_system_health, diskCheck, memCheck, overallOf]⟩

/-- C4 amended: whenever a component check raises an exception that the
source records as an error — a disk-probe failure (including the
`ZeroDivisionError` for `total = 0`) or a memory-check exception other
than `ImportError` — the report is `"unhealthy"`; the memory check's
`ImportError` alone yields component status `"unknown"` and can leave the
report `"healthy"`. -/
theorem c4_recorded_raise_unhealthy (e : HealthEnv)
    (h : (∃ m, e.disk = DiskProbe.exc m) ∨ (∃ u f, e.disk = DiskProbe.ok 0 u f) ∨
         (∃ m, e.memory = MemProbe.exc m)) :
    (check_system_health e).overall_status = "unhealthy" := by
  apply ((c7_overall_status_iff e).1).mpr
  show (diskCheck e.disk).2.2 ++ (memCheck e.memory).2.2 ≠ []
  rcases h with ⟨m, hd⟩ | ⟨u, f, hd⟩ | ⟨m, hm⟩
  · simp [hd, diskCheck]
  · simp [hd, diskCheck]
  · simp [hm, memCheck]

/-- C4 witness at a concrete input: a failing disk probe forces
`"unhealthy"`. -/
theorem c4_witness :
    (check_system_health
      { timestamp := "t", disk := DiskProbe.exc "boom",
        memory := MemProbe.importErr, metrics := perfInit }).overall_status
      = "unhealthy" :=
  c4_recorded_raise_unhealthy _ (Or.inl ⟨"boom", rfl⟩)

/-! ## Claim theorems: `retry` -/

/-- Unfolding one loop iteration of `sync_wrapper`. -/
theorem retryGo_succ {α : Type} (op : Nat → OpResult α) (m : String → Bool)
    (b : ℚ) (fuel attempt : Nat) (cur : ℚ) (acc : List ℚ) :
    retryGo op m b (fuel + 1) attempt cur acc =
      match op attempt with
      | .ok v => (.ok (some v), acc)
      | .raise e =>
        if m e then
          if fuel = 0 then (.error e, acc)
          else retryGo op m b fuel (attempt + 1) (cur * b) (acc ++ [cur])
        else (.error e, acc) := rfl

/-- C6: with `max_attempts = 3`, an operation that raises matching
exceptions on attempts 1 and 2 and succeeds on attempt 3 returns the
success value after exactly the two sleeps `delay` and `delay * backoff`;
an operation that always raises one matching exception re-raises it after
the third attempt, having slept exactly twice; and a non-matching
exception on the first attempt propagates immediately with no sleep. -/
theorem c6_retry_behavior {α : Type} (m : String → Bool) (delay backoff : ℚ)
    (op1 op2 op3 : Nat → OpResult α) (v : α) (e1 e2 e f : String)
    (h11 : op1 1 = .raise e1) (hm1 : m e1 = true)
    (h12 : op1 2 = .raise e2) (hm2 : m e2 = true)
    (h13 : op1 3 = .ok v)
    (h2 : ∀ n, op2 n = .raise e) (hme : m e = true)
    (h31 : op3 1 = .raise f) (hmf : m f = false) :
    sync_wrapper op1 m 3 delay backoff = (.ok (some v), [delay, delay * backoff]) ∧
    sync_wrapper op2 m 3 delay backoff = (.error e, [delay, delay * backoff]) ∧
    sync_wrapper op3 m 3 delay backoff = (.error f, []) := by
  refine ⟨?_, ?_, ?_⟩
  · show retryGo op1 m backoff 3 1 delay [] = _
    rw [show (3 : Nat) = 2 + 1 from rfl, retryGo_succ, h11]
    simp only [hm1, if_true, show ¬((2 : Nat) = 0) from by decide, if_false]
    rw [show (2 : Nat) = 1 + 1 from rfl, retryGo_succ, h12]
    simp only [hm2, if_true, show ¬((1 : Nat) = 0) from by decide, if_false]
    rw [retryGo_succ, h13]
    simp
  · show retryGo op2 m backoff 3 1 delay [] = _
    rw [show (3 : Nat) = 2 + 1 from rfl, retryGo_succ, h2 1]
    simp only [hme, if_true, show ¬((2 : Nat) = 0) from by decide, if_false]
    rw [show (2 : Nat) = 1 + 1 from rfl, retryGo_succ, h2 2]
    simp only [hme, if_true, show ¬((1 : Nat) = 0) from by decide, if_false]
    rw [retryGo_succ, h2 3]
    simp [hme]
  · show retryGo op3 m backoff 3 1 delay [] = _
    rw [show (3 : Nat) = 2 + 1 from rfl, retryGo_succ, h31]
    simp [hmf]

/-- C6 witness at concrete operations. -/
theorem c6_witness :
    sync_wrapper (fun n => if n = 3 then OpResult.ok 7 else OpResult.raise "E")
      (fun s => s == "E") 3 1 2 = (.ok (some 7), [1, 1 * 2]) ∧
    sync_wrapper (fun _ => (OpResult.raise "E" : OpResult Nat))
      (fun s => s == "E") 3 1 2 = (.error "E", [1, 1 * 2]) ∧
    sync_wrapper (fun _ => (OpResult.raise "F" : OpResult Nat))
      (fun s => s == "E") 3 1 2 = (.error "F", []) :=
  c6_retry_behavior (fun s => s == "E") 1 2
    (fun n => if n = 3 then OpResult.ok 7 else OpResult.raise "E")
    (fun _ => OpResult.raise "E") (fun _ => OpResult.raise "F")
    7 "E" "E" "E" "F" rfl rfl rfl rfl rfl (fun _ => rfl) rfl rfl rfl

/-! ## Claim theorems: `deploy.py` -/

/-- C1 as stated is false: constructing `DeploymentManager("staging")`
(an environment outside the catalog) performs its file effects — in
particular it creates the deployment directory — and `check_requirements`
passes vacuously (the unknown environment resolves to an empty requirement
list), so `deploy` proceeds past validation all the way to success. -/
theorem c1_counterexample :
    assocFind "staging" ENVIRONMENTS = none ∧
    DeployStep.mkdirDeployment ∈ managerInitSteps "staging" ∧
    check_requirements ⟨3, 11, [], false, true, PipOutcome.success⟩ "staging"
      = (true, []) ∧
    deploy ⟨3, 11, [], false, true, PipOutcome.success⟩ "staging"
      = (.ok true, [DeployStep.pipInstall, DeployStep.writeEnvFile,
          DeployStep.writeStartupScript, DeployStep.writeDeploymentRecord]) :=
  ⟨rfl, by decide, rfl, rfl⟩

/-- C1 amended: the rejection of environment names outside
{local, colab, cloud, production} happens in the CLI entry point, whose
`argparse` `choices` list exits before the deployment manager is
constructed — hence before any file write; the manager itself performs no
such validation. -/
theorem c1_cli_rejects_unknown_env (environment : String) (dryRunFlag : Bool)
    (w : DeployWorld) (h : assocFind environment ENVIRONMENTS = none) :
    mainCli environment dryRunFlag w = (.argparseError, []) := by
  unfold mainCli
  rw [h]
  rfl

/-- C1 witness at a concrete unknown environment name. -/
theorem c1_witness :
    mainCli "staging" false ⟨3, 11, [], false, true, PipOutcome.success⟩
      = (.argparseError, []) :=
  c1_cli_rejects_unknown_env "staging" false _ rfl

/-- C3 as stated is false: `"kubernetes"` is listed in the production
profile's requirements but matches none of the three resolution branches
of `check_requirements`, so with the `kubernetes` probe failing (and
`docker`, `helm` present) the check still passes with an empty missing
list and `deploy` proceeds. -/
theorem c3_counterexample :
    "kubernetes" ∈ requirementsOf "production" ∧
    check_command ⟨3, 11, ["docker", "helm"], false, true, PipOutcome.success⟩
      "kubernetes" = false ∧
    check_requirements ⟨3, 11, ["docker", "helm"], false, true, PipOutcome.success⟩
      "production" = (true, []) ∧
    (deploy ⟨3, 11, ["docker", "helm"], false, true, PipOutcome.success⟩
      "production").1 = .ok true :=
  ⟨by decide, rfl, rfl, rfl⟩

/-- C3 amended: the requirement check resolves exactly the requirements
that fall in one of the three recognized categories (a name containing
`"python"`, a member of the fixed probed-command list, or exactly
`"google-colab"`); a reported-missing requirement is always a recognized
one from the environment's profile, the check passes iff the missing list
is empty, and a non-empty missing list makes `deploy` return `false`
before any later step runs (no file effects). -/
theorem c3_requirement_gate (w : DeployWorld) (environment : String) :
    ((check_requirements w environment).1 = true ↔
      (check_requirements w environment).2 = []) ∧
    (∀ r, r ∈ (check_requirements w environment).2 →
      r ∈ requirementsOf environment ∧ requirementMissing w r = true) ∧
    ((check_requirements w environment).2 ≠ [] →
      deploy w environment = (.ok false, [])) := by
  refine ⟨?_, ?_, ?_⟩
  · simp [check_requirements]
  · intro r hr
    unfold check_requirements at hr
    exact List.mem_filter.mp hr
  · intro h
    unfold deploy
    rw [if_pos]
    unfold check_requirements at h ⊢
    simpa using h

/-- C3 witness at concrete inputs (`pip` probe failing for `local`). -/
theorem c3_witness :
    deploy ⟨3, 11, ["git"], false, true, PipOutcome.success⟩ "local"
      = (.ok false, []) ∧
    "pip" ∈ requirementsOf "local" ∧
    requirementMissing ⟨3, 11, ["git"], false, true, PipOutcome.success⟩ "pip"
      = true := by
  have h := c3_requirement_gate ⟨3, 11, ["git"], false, true, PipOutcome.success⟩ "local"
  refine ⟨h.2.2 (by decide), ?_, ?_⟩
  · exact (h.2.1 "pip" (by decide)).1
  · exact (h.2.1 "pip" (by decide)).2

/-- C5 as stated is false: when the `pip install` subprocess exceeds its
300-second timeout, `install_dependencies` catches only
`CalledProcessError`, so the `TimeoutExpired` exception propagates out of
`deploy` instead of `deploy` returning `false`. -/
theorem c5_counterexample :
    (check_requirements ⟨3, 11, ["pip", "git"], false, true,
      PipOutcome.timeoutExpired⟩ "local").1 = true ∧
    deploy ⟨3, 11, ["pip", "git"], false, true, PipOutcome.timeoutExpired⟩ "local"
      = (.error DeployExc.timeoutExpired, [DeployStep.pipInstall]) :=
  ⟨rfl, rfl⟩

/-- C5 amended: when the requirement gate passes, an installer subprocess
that exits non-zero (`CalledProcessError`) makes `deploy` abort by
returning `false` without raising, while an installer that exceeds its
bounded timeout makes `deploy` leak the `TimeoutExpired` exception to its
caller. -/
theorem c5_install_failure_behavior (w : DeployWorld) (environment : String)
    (hchk : (check_requirements w environment).1 = true) :
    (w.pip = PipOutcome.calledProcessError → (deploy w environment).1 = .ok false) ∧
    (w.pip = PipOutcome.timeoutExpired →
      (deploy w environment).1 = .error DeployExc.timeoutExpired) := by
  unfold deploy
  rw [if_neg (by simp [hchk])]
  constructor <;> intro hp <;> simp [install_dependencies, hp]

/-- C5 witness at concrete inputs. -/
theorem c5_witness :
    (deploy ⟨3, 11, ["pip", "git"], false, true, PipOutcome.calledProcessError⟩
      "local").1 = .ok false :=
  (c5_install_failure_behavior
    ⟨3, 11, ["pip", "git"], false, true, PipOutcome.calledProcessError⟩
    "local" rfl).1 rfl
